import Mathlib

/-!
# Verification of `httpctx` (flga/httpctx)

Shallow embedding of `src/httpctx.go`: a coordinator that runs an HTTP
serving operation (`runFunc`) while a background goroutine waits on a
cancellation context and, once it fires, drives `srv.Shutdown` bounded by a
configured timeout, invoking before/after hooks.

Modelling decisions:
* Go `error` values are `Option GoError` (`none` = nil error).
  `errors.Is(err, http.ErrServerClosed)` is modelled as the sentinel
  constructor test (`GoError.serverClosed`); the repository never wraps it.
* `time.Duration` is `Int` (int64 nanoseconds); `timeSecond` is
  `time.Second`.
* `srv.Shutdown` is an external collaborator (`net/http`): per its
  documented contract it returns nil on a clean drain or the context's
  deadline-exceeded error otherwise, which `ShutdownRes` captures.
* The run is deterministic given an environment `RunEnv` recording whether
  the context ever fires, what `runFunc` returns, and how the shutdown
  drains.  `start` yields the causal list of coordination events together
  with an `Outcome`: a returned error, a blocked receive on the unbuffered
  channel (cancellation never fires yet `runFunc` reported closed/nil), or
  a program panic (a nil hook was called).
* Hooks are caller-supplied callbacks; the coordinator only cares whether
  they are nil and with which argument they are invoked.  A hook value is
  modelled as `Option (α → List Nat)` — `none` is Go's nil func (calling it
  panics), and the `List Nat` is the callback's own abstract external
  effect, discarded by the coordinator exactly as Go discards it; the no-op
  default is literally `fun _ => []`.
-/

/-- Go errors relevant to the coordinator: the `http.ErrServerClosed`
sentinel, `context.DeadlineExceeded`, or any other error (indexed). -/
inductive GoError : Type
  | serverClosed
  | deadlineExceeded
  | other (n : Nat)
deriving DecidableEq, Repr

/-- `errors.Is(e, http.ErrServerClosed)` for a non-nil error `e`. -/
def GoError.isServerClosed : GoError → Bool
  | .serverClosed => true
  | _ => false

/-- The context handed to `srv.Shutdown`: `context.Background()` (no
deadline) or `context.WithTimeout(context.Background(), d)` — a deadline
`d` nanoseconds from now. -/
inductive Deadline : Type
  | unbounded
  | bounded (d : Int)
deriving DecidableEq, Repr

/-- Outcome of `srv.Shutdown` per the `net/http` collaborator contract:
nil on clean drain, `context.DeadlineExceeded` otherwise. -/
inductive ShutdownRes : Type
  | ok
  | timedOut
deriving DecidableEq, Repr

/-- The error value `srv.Shutdown` returns. -/
def ShutdownRes.toErr : ShutdownRes → Option GoError
  | .ok => none
  | .timedOut => some GoError.deadlineExceeded

/-- Observable coordination events of one run of `start`, in causal order. -/
inductive Event : Type
  | cancelFired
  | beforeShutdownCall (timeout : Int)
  | shutdownCall (dl : Deadline)
  | afterShutdownCall (err : Option GoError)
deriving DecidableEq, Repr

/-- Classifier: is this a `cfg.beforeShutdown(...)` invocation? -/
def Event.isBeforeC : Event → Bool
  | .beforeShutdownCall _ => true
  | _ => false

/-- Classifier: is this a `srv.Shutdown(...)` invocation? -/
def Event.isShutdownC : Event → Bool
  | .shutdownCall _ => true
  | _ => false

/-- Classifier: is this a `cfg.afterShutdown(...)` invocation? -/
def Event.isAfterC : Event → Bool
  | .afterShutdownCall _ => true
  | _ => false

/-- Classifier: is this the context cancellation firing? -/
def Event.isCancelC : Event → Bool
  | .cancelFired => true
  | _ => false

/-- `time.Second` in nanoseconds (`time.Duration` units). -/
def timeSecond : Int := 1000000000

/-- The `config` struct of `httpctx.go` (lines 12-16). -/
structure Config : Type where
  beforeShutdown : Option (Int → List Nat)
  afterShutdown : Option (Option GoError → List Nat)
  shutdownTimeout : Int

/-- `WithShutdownTimeout` (httpctx.go lines 22-26): an `Option` setting
`shutdownTimeout`. -/
def WithShutdownTimeout (d : Int) : Config → Config :=
  fun o => { o with shutdownTimeout := d }

/-- `BeforeShutdown` (httpctx.go lines 29-33): an `Option` setting the
before-shutdown hook, nil or not. -/
def BeforeShutdown (fn : Option (Int → List Nat)) : Config → Config :=
  fun o => { o with beforeShutdown := fn }

/-- `AfterShutdown` (httpctx.go lines 37-41): an `Option` setting the
after-shutdown hook, nil or not. -/
def AfterShutdown (fn : Option (Option GoError → List Nat)) : Config → Config :=
  fun o => { o with afterShutdown := fn }

/-- `newConfig` (httpctx.go lines 97-109): defaults of no-op hooks and a
30-second timeout, then each option applied in order. -/
def newConfig (opts : List (Config → Config)) : Config :=
  List.foldl (fun cfg opt => opt cfg)
    { beforeShutdown := some fun _ => []
      afterShutdown := some fun _ => []
      shutdownTimeout := 30 * timeSecond }
    opts

/-- Environment of one run: does the context ever fire, what does
`runFunc` return, and does the graceful drain finish in time. -/
structure RunEnv : Type where
  cancelFires : Bool
  runResult : Option GoError
  shutdownRes : ShutdownRes

/-- The shutdown context computed by the goroutine (httpctx.go lines
77-82): `context.Background()` unless `cfg.shutdownTimeout > 0`, in which
case a deadline now + `shutdownTimeout`. -/
def computedDeadline (t : Int) : Deadline :=
  if 0 < t then Deadline.bounded t else Deadline.unbounded

/-- The goroutine body after `<-ctx.Done()` returns (httpctx.go lines
75-85): compute the shutdown context, call `cfg.beforeShutdown` (panicking
if nil, so no value is ever sent on `errc`), call `srv.Shutdown`, and
offer its result on `errc`.  Yields the causal events and `some` result
offered on the channel, or `none` if the goroutine panicked. -/
def goroutineRun (cfg : Config) (sdRes : ShutdownRes) :
    List Event × Option (Option GoError) :=
  match cfg.beforeShutdown with
  | none => ([Event.cancelFired], none)
  | some _ =>
      ([Event.cancelFired,
        Event.beforeShutdownCall cfg.shutdownTimeout,
        Event.shutdownCall (computedDeadline cfg.shutdownTimeout)],
       some sdRes.toErr)

/-- The early-return test of httpctx.go line 88: `some e` iff
`err != nil && !errors.Is(err, http.ErrServerClosed)`, carrying the
returned error. -/
def runEarlyErr : Option GoError → Option GoError
  | some e => if e.isServerClosed then none else some e
  | none => none

/-- Result of one run of `start`: a returned error value, a panic of the
program (nil hook invoked), or blocking forever on the channel receive. -/
inductive Outcome : Type
  | ret (e : Option GoError)
  | panicked
  | blocked
deriving DecidableEq, Repr

/-- `start` when the cancellation context fires during the run: the
goroutine runs its body; the main flow returns `runFunc`'s error early if
it is non-nil and not the closed sentinel (httpctx.go lines 88-90, the
goroutine's channel send then blocks forever so `afterShutdown` never
runs), and otherwise receives the shutdown result, invokes
`cfg.afterShutdown` with it (panicking if nil) and returns it (lines
92-94).  An unrecovered goroutine panic crashes the whole program. -/
def startFired (cfg : Config) (env : RunEnv) : List Event × Outcome :=
  match goroutineRun cfg env.shutdownRes with
  | (gev, none) => (gev, Outcome.panicked)
  | (gev, some r) =>
      match runEarlyErr env.runResult with
      | some e => (gev, Outcome.ret (some e))
      | none =>
          match cfg.afterShutdown with
          | none => (gev ++ [Event.afterShutdownCall r], Outcome.panicked)
          | some _ => (gev ++ [Event.afterShutdownCall r], Outcome.ret r)

/-- `start` when the cancellation context never fires: the goroutine stays
blocked on `<-ctx.Done()` producing no events; the main flow returns
`runFunc`'s early error, or blocks forever on the empty channel. -/
def startUnfired (env : RunEnv) : List Event × Outcome :=
  match runEarlyErr env.runResult with
  | some e => ([], Outcome.ret (some e))
  | none => ([], Outcome.blocked)

/-- `start` (httpctx.go lines 71-95). -/
def start (cfg : Config) (env : RunEnv) : List Event × Outcome :=
  if env.cancelFires then startFired cfg env else startUnfired env

/-- `allPreceded p q acc t`: walking `t` with `acc` recording whether a
`p`-event has already occurred, every `q`-event is strictly preceded by
some `p`-event. -/
def allPreceded (p q : Event → Bool) : Bool → List Event → Bool
  | _, [] => true
  | seen, e :: rest => (!q e || seen) && allPreceded p q (seen || p e) rest

/-- The early-return test rejects exactly nil and the closed sentinel. -/
theorem runEarlyErr_eq_none (r : Option GoError)
    (h : r = none ∨ r = some GoError.serverClosed) : runEarlyErr r = none := by
  rcases h with h | h <;> simp [runEarlyErr, h, GoError.isServerClosed]

/-- C1: if the cancellation signal never fires and `runFunc` returns a
non-nil error that is not `http.ErrServerClosed`, `start` returns exactly
that error (httpctx.go lines 88-90) and `afterShutdown` is never invoked
(the goroutine never passes `<-ctx.Done()`, so nothing is ever received
from `errc`). -/
theorem C1_early_failure (cfg : Config) (env : RunEnv) (e : GoError)
    (hc : env.cancelFires = false) (hr : env.runResult = some e)
    (hs : e.isServerClosed = false) :
    (start cfg env).2 = Outcome.ret (some e) ∧
      (start cfg env).1.countP Event.isAfterC = 0 := by
  simp [start, hc, startUnfired, runEarlyErr, hr, hs]

/-- C1 witness: a concrete run with no cancellation and a bind-style
failure. -/
theorem C1_early_failure_w :
    (start (newConfig []) ⟨false, some (GoError.other 7), ShutdownRes.ok⟩).2 =
      Outcome.ret (some (GoError.other 7)) ∧
    (start (newConfig [])
        ⟨false, some (GoError.other 7), ShutdownRes.ok⟩).1.countP
      Event.isAfterC = 0 :=
  C1_early_failure (newConfig []) ⟨false, some (GoError.other 7), ShutdownRes.ok⟩
    (GoError.other 7) rfl rfl rfl

/-- C2: when `runFunc` returns nil or the closed sentinel, the sentinel is
never the Run Result: `start` falls through the early return (line 88),
receives the shutdown branch's result from `errc` and returns it, and that
result is never the sentinel (`srv.Shutdown` returns nil or the deadline
error).  Stated for runs where the shutdown branch delivers a result:
cancellation fires and both hooks are non-nil. -/
theorem C2_sentinel_suppressed (cfg : Config) (env : RunEnv)
    (hr : env.runResult = none ∨ env.runResult = some GoError.serverClosed)
    (hc : env.cancelFires = true)
    (hb : cfg.beforeShutdown.isSome = true)
    (ha : cfg.afterShutdown.isSome = true) :
    (start cfg env).2 = Outcome.ret env.shutdownRes.toErr ∧
      env.shutdownRes.toErr ≠ some GoError.serverClosed := by
  obtain ⟨f, hf⟩ := Option.isSome_iff_exists.mp hb
  obtain ⟨g, hg⟩ := Option.isSome_iff_exists.mp ha
  refine ⟨?_, ?_⟩
  · simp [start, hc, startFired, goroutineRun, hf, hg, runEarlyErr_eq_none _ hr]
  · cases env.shutdownRes <;> simp [ShutdownRes.toErr]

/-- C2 witness: a concrete run stopped by cancellation whose `runFunc`
reports the closed sentinel. -/
theorem C2_sentinel_suppressed_w :
    (start (newConfig [])
        ⟨true, some GoError.serverClosed, ShutdownRes.timedOut⟩).2 =
      Outcome.ret (ShutdownRes.timedOut.toErr) ∧
    ShutdownRes.timedOut.toErr ≠ some GoError.serverClosed :=
  C2_sentinel_suppressed (newConfig [])
    ⟨true, some GoError.serverClosed, ShutdownRes.timedOut⟩
    (Or.inr rfl) rfl rfl rfl

/-- C3: on the non-early-return path with a delivered shutdown result,
`afterShutdown` is invoked exactly once, with exactly the value
`srv.Shutdown` produced (nil on success), this invocation comes after the
`srv.Shutdown` call in the causal trace (and, being in the trace of the
run, before `start` returns), and `start` returns that same value
(httpctx.go lines 92-94). -/
theorem C3_after_hook_exact (cfg : Config) (env : RunEnv)
    (hr : env.runResult = none ∨ env.runResult = some GoError.serverClosed)
    (hc : env.cancelFires = true)
    (hb : cfg.beforeShutdown.isSome = true)
    (ha : cfg.afterShutdown.isSome = true) :
    (start cfg env).1.countP Event.isAfterC = 1 ∧
      Event.afterShutdownCall env.shutdownRes.toErr ∈ (start cfg env).1 ∧
      allPreceded Event.isShutdownC Event.isAfterC false (start cfg env).1 =
        true ∧
      (start cfg env).2 = Outcome.ret env.shutdownRes.toErr := by
  obtain ⟨f, hf⟩ := Option.isSome_iff_exists.mp hb
  obtain ⟨g, hg⟩ := Option.isSome_iff_exists.mp ha
  simp [start, hc, startFired, goroutineRun, hf, hg,
    runEarlyErr_eq_none _ hr, allPreceded, Event.isAfterC, Event.isShutdownC,
    List.countP_cons, Event.isBeforeC, Event.isCancelC]

/-- C3 witness: a concrete clean-shutdown run. -/
theorem C3_after_hook_exact_w :
    (start (newConfig []) ⟨true, none, ShutdownRes.ok⟩).1.countP
        Event.isAfterC = 1 ∧
      Event.afterShutdownCall (ShutdownRes.ok.toErr) ∈
        (start (newConfig []) ⟨true, none, ShutdownRes.ok⟩).1 ∧
      allPreceded Event.isShutdownC Event.isAfterC false
          (start (newConfig []) ⟨true, none, ShutdownRes.ok⟩).1 = true ∧
      (start (newConfig []) ⟨true, none, ShutdownRes.ok⟩).2 =
        Outcome.ret (ShutdownRes.ok.toErr) :=
  C3_after_hook_exact (newConfig []) ⟨true, none, ShutdownRes.ok⟩
    (Or.inl rfl) rfl rfl rfl

/-- C4 counterexample: on a run where cancellation never fires and
`runFunc` fails with a non-sentinel error, `start` takes the early return
of line 88 and `afterShutdown` is invoked zero times, not exactly once —
refuting "for every run, regardless of how the run terminates, the
after-shutdown hook is invoked exactly once". -/
theorem C4_cex :
    ¬ ((start (newConfig [])
          ⟨false, some (GoError.other 0), ShutdownRes.ok⟩).1.countP
        Event.isAfterC = 1) := by
  decide

/-- C4 amended: on every run that reaches the shutdown-wait path
(cancellation fires, `runFunc` returned nil or the closed sentinel, hooks
non-nil), `afterShutdown` is invoked exactly once, and it receives nil
when shutdown completes within its deadline. -/
theorem C4_after_once_on_shutdown_path (cfg : Config) (env : RunEnv)
    (hr : env.runResult = none ∨ env.runResult = some GoError.serverClosed)
    (hc : env.cancelFires = true)
    (hb : cfg.beforeShutdown.isSome = true)
    (ha : cfg.afterShutdown.isSome = true) :
    (start cfg env).1.countP Event.isAfterC = 1 ∧
      (env.shutdownRes = ShutdownRes.ok →
        Event.afterShutdownCall none ∈ (start cfg env).1) := by
  obtain ⟨f, hf⟩ := Option.isSome_iff_exists.mp hb
  obtain ⟨g, hg⟩ := Option.isSome_iff_exists.mp ha
  constructor
  · simp [start, hc, startFired, goroutineRun, hf, hg,
      runEarlyErr_eq_none _ hr, List.countP_cons, Event.isAfterC]
  · intro hok
    simp [start, hc, startFired, goroutineRun, hf, hg,
      runEarlyErr_eq_none _ hr, hok, ShutdownRes.toErr]

/-- C4 amended witness: a concrete clean-shutdown run. -/
theorem C4_after_once_on_shutdown_path_w :
    (start (newConfig [])
        ⟨true, some GoError.serverClosed, ShutdownRes.ok⟩).1.countP
      Event.isAfterC = 1 ∧
    (ShutdownRes.ok = ShutdownRes.ok →
      Event.afterShutdownCall none ∈
        (start (newConfig [])
          ⟨true, some GoError.serverClosed, ShutdownRes.ok⟩).1) :=
  C4_after_once_on_shutdown_path (newConfig [])
    ⟨true, some GoError.serverClosed, ShutdownRes.ok⟩ (Or.inr rfl) rfl rfl rfl

/-- C5: whenever the cancellation signal fires (and the registered
before-shutdown hook is a real function, as the defaults guarantee),
`beforeShutdown` is invoked exactly once, with the configured
`shutdownTimeout` as its argument, and strictly before the `srv.Shutdown`
call (httpctx.go lines 84-85).  This holds whether or not `runFunc` later
fails: the goroutine's behaviour is independent of the run branch. -/
theorem C5_before_hook (cfg : Config) (env : RunEnv)
    (hc : env.cancelFires = true)
    (hb : cfg.beforeShutdown.isSome = true) :
    (start cfg env).1.countP Event.isBeforeC = 1 ∧
      Event.beforeShutdownCall cfg.shutdownTimeout ∈ (start cfg env).1 ∧
      allPreceded Event.isBeforeC Event.isShutdownC false (start cfg env).1 =
        true := by
  obtain ⟨f, hf⟩ := Option.isSome_iff_exists.mp hb
  cases hre : runEarlyErr env.runResult with
  | some e =>
      simp [start, hc, startFired, goroutineRun, hf, hre, List.countP_cons,
        Event.isBeforeC, Event.isShutdownC, allPreceded]
  | none =>
      cases hg : cfg.afterShutdown <;>
        simp [start, hc, startFired, goroutineRun, hf, hre, hg,
          List.countP_cons, Event.isBeforeC, Event.isShutdownC, allPreceded]

/-- C5 witness: a concrete cancelled run with the default configuration. -/
theorem C5_before_hook_w :
    (start (newConfig []) ⟨true, none, ShutdownRes.ok⟩).1.countP
        Event.isBeforeC = 1 ∧
      Event.beforeShutdownCall (newConfig []).shutdownTimeout ∈
        (start (newConfig []) ⟨true, none, ShutdownRes.ok⟩).1 ∧
      allPreceded Event.isBeforeC Event.isShutdownC false
        (start (newConfig []) ⟨true, none, ShutdownRes.ok⟩).1 = true :=
  C5_before_hook (newConfig []) ⟨true, none, ShutdownRes.ok⟩ rfl rfl

/-- The C6 sentence's own deadline rule, word for word: zero means
unbounded, otherwise now + `shutdownTimeout` (refinement comparison
definition, written from the spec, not the source). -/
def claimedDeadlineC6 (t : Int) : Deadline :=
  if t = 0 then Deadline.unbounded else Deadline.bounded t

/-- C6 counterexample: with `shutdownTimeout = -1` the code's guard
`cfg.shutdownTimeout > 0` (httpctx.go line 78) selects the unbounded
background context, while the claim's rule ("zero → unbounded, otherwise
now + timeout") demands the bounded deadline now − 1. -/
theorem C6_cex :
    Event.shutdownCall Deadline.unbounded ∈
      (start (newConfig [WithShutdownTimeout (-1)])
        ⟨true, none, ShutdownRes.ok⟩).1 ∧
    claimedDeadlineC6 (-1) = Deadline.bounded (-1) := by
  decide

/-- C6 amended: when cancellation fires, `srv.Shutdown` is called exactly
once, with the background context when `shutdownTimeout` is zero **or
negative**, and with the deadline now + `shutdownTimeout` exactly when
`shutdownTimeout` is strictly positive (httpctx.go lines 77-82). -/
theorem C6_deadline (cfg : Config) (env : RunEnv)
    (hc : env.cancelFires = true)
    (hb : cfg.beforeShutdown.isSome = true) :
    (start cfg env).1.countP Event.isShutdownC = 1 ∧
      Event.shutdownCall (computedDeadline cfg.shutdownTimeout) ∈
        (start cfg env).1 ∧
      (cfg.shutdownTimeout ≤ 0 →
        computedDeadline cfg.shutdownTimeout = Deadline.unbounded) ∧
      (0 < cfg.shutdownTimeout →
        computedDeadline cfg.shutdownTimeout =
          Deadline.bounded cfg.shutdownTimeout) := by
  obtain ⟨f, hf⟩ := Option.isSome_iff_exists.mp hb
  refine ⟨?_, ?_, ?_, ?_⟩
  · cases hre : runEarlyErr env.runResult with
    | some e =>
        simp [start, hc, startFired, goroutineRun, hf, hre, List.countP_cons,
          Event.isShutdownC]
    | none =>
        cases hg : cfg.afterShutdown <;>
          simp [start, hc, startFired, goroutineRun, hf, hre, hg,
            List.countP_cons, Event.isShutdownC]
  · cases hre : runEarlyErr env.runResult with
    | some e => simp [start, hc, startFired, goroutineRun, hf, hre]
    | none =>
        cases hg : cfg.afterShutdown <;>
          simp [start, hc, startFired, goroutineRun, hf, hre, hg]
  · intro hle
    simp [computedDeadline, Int.not_lt.mpr hle]
  · intro hlt
    simp [computedDeadline, hlt]

/-- C6 amended witness: a concrete cancelled run with a negative timeout,
plus the positive-branch facts at the default timeout. -/
theorem C6_deadline_w :
    (start (newConfig [WithShutdownTimeout (-2)])
        ⟨true, none, ShutdownRes.ok⟩).1.countP Event.isShutdownC = 1 ∧
      Event.shutdownCall
          (computedDeadline
            (newConfig [WithShutdownTimeout (-2)]).shutdownTimeout) ∈
        (start (newConfig [WithShutdownTimeout (-2)])
          ⟨true, none, ShutdownRes.ok⟩).1 ∧
      ((newConfig [WithShutdownTimeout (-2)]).shutdownTimeout ≤ 0 →
        computedDeadline
            (newConfig [WithShutdownTimeout (-2)]).shutdownTimeout =
          Deadline.unbounded) ∧
      (0 < (newConfig [WithShutdownTimeout (-2)]).shutdownTimeout →
        computedDeadline
            (newConfig [WithShutdownTimeout (-2)]).shutdownTimeout =
          Deadline.bounded
            (newConfig [WithShutdownTimeout (-2)]).shutdownTimeout) :=
  C6_deadline (newConfig [WithShutdownTimeout (-2)])
    ⟨true, none, ShutdownRes.ok⟩ rfl rfl

/-- C7: in every run — whatever the configuration, hook nil-ness, run
error or cancellation behaviour — `srv.Shutdown` is invoked at most once
(the goroutine body of httpctx.go lines 74-86 runs at most once and never
retries), and never before the cancellation signal has fired. -/
theorem C7_shutdown_at_most_once (cfg : Config) (env : RunEnv) :
    (start cfg env).1.countP Event.isShutdownC ≤ 1 ∧
      allPreceded Event.isCancelC Event.isShutdownC false (start cfg env).1 =
        true := by
  cases hc : env.cancelFires with
  | false =>
      cases hre : runEarlyErr env.runResult <;>
        simp [start, hc, startUnfired, hre, allPreceded]
  | true =>
      cases hf : cfg.beforeShutdown with
      | none => simp [start, hc, startFired, goroutineRun, hf, allPreceded,
          List.countP_cons, Event.isShutdownC, Event.isCancelC]
      | some f =>
          cases hre : runEarlyErr env.runResult with
          | some e =>
              simp [start, hc, startFired, goroutineRun, hf, hre,
                List.countP_cons, Event.isShutdownC, Event.isCancelC,
                allPreceded]
          | none =>
              cases hg : cfg.afterShutdown <;>
                simp [start, hc, startFired, goroutineRun, hf, hre, hg,
                  List.countP_cons, Event.isShutdownC, Event.isCancelC,
                  allPreceded]

/-- C8: `newConfig` applied to no options (httpctx.go lines 97-109) yields
a `shutdownTimeout` of 30 seconds and non-nil no-op hooks (literally
`fun _ => []`: callable functions with no effect), so with the default
configuration `start` invokes both hooks without any nil check and no run
can panic on a nil-function call. -/
theorem C8_defaults :
    (newConfig []).shutdownTimeout = 30 * timeSecond ∧
      (newConfig []).beforeShutdown = some (fun _ => ([] : List Nat)) ∧
      (newConfig []).afterShutdown = some (fun _ => ([] : List Nat)) ∧
      ∀ env : RunEnv, (start (newConfig []) env).2 ≠ Outcome.panicked := by
  refine ⟨rfl, rfl, rfl, ?_⟩
  intro env
  cases hc : env.cancelFires with
  | false =>
      cases hre : runEarlyErr env.runResult <;>
        simp [start, hc, startUnfired, hre]
  | true =>
      cases hre : runEarlyErr env.runResult <;>
        simp [start, hc, startFired, goroutineRun, newConfig, hre]

/-- C9: the bounded-deadline branch of httpctx.go line 78 tests
`cfg.shutdownTimeout > 0`, not `!= 0`: every strictly negative timeout
also selects the unbounded background context, and a bounded deadline is
passed to `srv.Shutdown` exactly when the timeout is strictly positive. -/
theorem C9_negative_timeout_unbounded (cfg : Config) (env : RunEnv)
    (hc : env.cancelFires = true)
    (hb : cfg.beforeShutdown.isSome = true) :
    (cfg.shutdownTimeout < 0 →
      Event.shutdownCall Deadline.unbounded ∈ (start cfg env).1) ∧
      ((Event.shutdownCall (Deadline.bounded cfg.shutdownTimeout) ∈
          (start cfg env).1) ↔ 0 < cfg.shutdownTimeout) := by
  obtain ⟨f, hf⟩ := Option.isSome_iff_exists.mp hb
  have hmem : ∀ dl : Deadline,
      (Event.shutdownCall dl ∈ (start cfg env).1) ↔
        dl = computedDeadline cfg.shutdownTimeout := by
    intro dl
    cases hre : runEarlyErr env.runResult with
    | some e => simp [start, hc, startFired, goroutineRun, hf, hre]
    | none =>
        cases hg : cfg.afterShutdown <;>
          simp [start, hc, startFired, goroutineRun, hf, hre, hg]
  constructor
  · intro hneg
    rw [hmem]
    simp [computedDeadline, Int.not_lt.mpr (le_of_lt hneg)]
  · rw [hmem]
    constructor
    · intro hdl
      by_contra hnp
      simp [computedDeadline, hnp] at hdl
    · intro hpos
      simp [computedDeadline, hpos]

/-- C9 witness: a concrete cancelled run with timeout −5 reaches the
unbounded branch, and the bounded-deadline equivalence holds there. -/
theorem C9_negative_timeout_unbounded_w :
    ((newConfig [WithShutdownTimeout (-5)]).shutdownTimeout < 0 →
      Event.shutdownCall Deadline.unbounded ∈
        (start (newConfig [WithShutdownTimeout (-5)])
          ⟨true, none, ShutdownRes.ok⟩).1) ∧
      ((Event.shutdownCall
            (Deadline.bounded
              (newConfig [WithShutdownTimeout (-5)]).shutdownTimeout) ∈
          (start (newConfig [WithShutdownTimeout (-5)])
            ⟨true, none, ShutdownRes.ok⟩).1) ↔
        0 < (newConfig [WithShutdownTimeout (-5)]).shutdownTimeout) :=
  C9_negative_timeout_unbounded (newConfig [WithShutdownTimeout (-5)])
    ⟨true, none, ShutdownRes.ok⟩ rfl rfl

/-- C10: passing a nil function to the `BeforeShutdown` or `AfterShutdown`
option overwrites the non-nil no-op default (httpctx.go lines 29-41 assign
`fn` unconditionally), so the resulting config holds a nil hook, and on
the shutdown path `start`'s unguarded call of that hook (lines 84 and 93)
is a nil-function call: the program panics.  The no-nil-check guarantee
covers unset hooks only. -/
theorem C10_nil_hook_panics (env : RunEnv)
    (hc : env.cancelFires = true)
    (hr : env.runResult = none) :
    (newConfig [BeforeShutdown none]).beforeShutdown = none ∧
      (newConfig [AfterShutdown none]).afterShutdown = none ∧
      (start (newConfig [BeforeShutdown none]) env).2 = Outcome.panicked ∧
      (start (newConfig [AfterShutdown none]) env).2 = Outcome.panicked := by
  refine ⟨rfl, rfl, ?_, ?_⟩
  · cases hre : runEarlyErr env.runResult <;>
      simp [start, hc, startFired, goroutineRun, newConfig, BeforeShutdown,
        hre, List.foldl]
  · simp [start, hc, startFired, goroutineRun, newConfig, AfterShutdown,
      runEarlyErr, hr, List.foldl]

/-- C10 witness: a concrete cancelled run under each nil-hook config. -/
theorem C10_nil_hook_panics_w :
    (newConfig [BeforeShutdown none]).beforeShutdown = none ∧
      (newConfig [AfterShutdown none]).afterShutdown = none ∧
      (start (newConfig [BeforeShutdown none])
          ⟨true, none, ShutdownRes.ok⟩).2 = Outcome.panicked ∧
      (start (newConfig [AfterShutdown none])
          ⟨true, none, ShutdownRes.ok⟩).2 = Outcome.panicked :=
  C10_nil_hook_panics ⟨true, none, ShutdownRes.ok⟩ rfl rfl
